import Mathlib

/-!
Verification of the OVO Energy Australia Home Assistant integration
(`custom_components/ovoenergy_au`): a shallow embedding, in Lean, of the
coordinator's data reducers (`coordinator.py`), the sensor statistics merger
(`sensor.py`), and the API client's token lifecycle, HTTP error
classification and HTML login-form scraping (`api.py`), together with
theorems settling the specification's claims about them.

Modelling conventions:
- Python floats are modelled as rationals (`ℚ`); the claims under study are
  exact arithmetic identities, not rounding statements.
- Python `str` values that are only carried around are `String`; strings
  that the code scans character by character (the login HTML) are `List Char`.
- JSON objects are structures; a field that may be missing (or `null`, when
  the code treats the two alike) is an `Option`.
- `datetime` values are integer Unix seconds (`Int`); `timedelta(minutes=5)`
  is `300`, `timedelta(hours=1)` is `3600`.
-/

namespace OvoEnergyAU

/-- Charge types occurring in the API's `charge.type` field
(`DEBIT`, `CREDIT`, `FREE`, `PEAK`, `OFF_PEAK`). -/
inductive ChargeType
  | DEBIT
  | CREDIT
  | FREE
  | PEAK
  | OFF_PEAK
deriving DecidableEq

/-- The `charge` sub-object of a usage entry; both of its keys may be absent. -/
structure Charge where
  value : Option ℚ
  ctype : Option ChargeType
deriving DecidableEq

/-- A usage-period entry as returned by the API (`UsagePeriodEntry`):
`periodFrom`, `periodTo`, `consumption` and `charge` may each be missing. -/
structure UsageEntry where
  periodFrom : Option String
  periodTo : Option String
  consumption : Option ℚ
  charge : Option Charge
deriving DecidableEq

/-- `entry.get("consumption", 0)` in `coordinator.py`. -/
def consumptionOf (e : UsageEntry) : ℚ :=
  e.consumption.getD 0

/-- `entry.get("charge", {}).get("value", 0)` in `coordinator.py`. -/
def chargeValueOf (e : UsageEntry) : ℚ :=
  match e.charge with
  | some c => c.value.getD 0
  | none => 0

/-- `entry.get("charge", {}).get("type", "DEBIT")` in `coordinator.py`
(also `(entry.get("charge") or {}).get("type", "DEBIT")`, which coincides
once absent and null charges are identified). -/
def effChargeType (e : UsageEntry) : ChargeType :=
  match e.charge with
  | some c => c.ctype.getD ChargeType.DEBIT
  | none => ChargeType.DEBIT

/-- `entry.get("charge", {}).get("type")` (no default), used for the solar
hourly entries. -/
def rawChargeType (e : UsageEntry) : Option ChargeType :=
  match e.charge with
  | some c => c.ctype
  | none => none

/-- One granularity's arrays inside the interval-data response:
`{"solar": [...], "export": [...]}`; an absent array is the empty list. -/
structure PeriodData where
  solar : List UsageEntry
  export_ : List UsageEntry
deriving DecidableEq

/-- The interval-data response: `daily` / `monthly` / `yearly` keys, each
possibly absent. -/
structure IntervalData where
  daily : Option PeriodData
  monthly : Option PeriodData
  yearly : Option PeriodData
deriving DecidableEq

/-- The per-granularity snapshot dict built by
`OVOEnergyAUDataUpdateCoordinator._process_data`; `none` = key not set. -/
structure Snapshot where
  solar_consumption : Option ℚ
  solar_charge : Option ℚ
  solar_latest : Option UsageEntry
  grid_consumption : Option ℚ
  grid_charge : Option ℚ
  return_to_grid : Option ℚ
  return_to_grid_charge : Option ℚ
  grid_latest : Option UsageEntry
deriving DecidableEq

/-- The empty snapshot dict `{}`. -/
def Snapshot.empty : Snapshot :=
  ⟨none, none, none, none, none, none, none, none⟩

/-- The body of the `for period in [...]` loop of `_process_data`, for one
granularity: absent granularity leaves `{}`; otherwise only the LAST entry
of each of the `solar` and `export` arrays is read, and the export entry is
routed on its charge type (`CREDIT` = return to grid, anything else = grid
consumption). -/
def processPeriod : Option PeriodData → Snapshot
  | none => Snapshot.empty
  | some pd =>
    let s1 :=
      match pd.solar.getLast? with
      | some latest =>
        { Snapshot.empty with
            solar_consumption := some (consumptionOf latest)
            solar_charge := some (chargeValueOf latest)
            solar_latest := some latest }
      | none => Snapshot.empty
    match pd.export_.getLast? with
    | some latest =>
      if effChargeType latest = ChargeType.CREDIT then
        { s1 with
            grid_consumption := some 0
            grid_charge := some 0
            return_to_grid := some (consumptionOf latest)
            return_to_grid_charge := some (chargeValueOf latest)
            grid_latest := some latest }
      else
        { s1 with
            grid_consumption := some (consumptionOf latest)
            grid_charge := some (chargeValueOf latest)
            return_to_grid := some 0
            return_to_grid_charge := some 0
            grid_latest := some latest }
    | none => s1

/-- The three granularity snapshots produced by `_process_data`. -/
structure ProcessedInterval where
  daily : Snapshot
  monthly : Snapshot
  yearly : Snapshot
deriving DecidableEq

/-- `OVOEnergyAUDataUpdateCoordinator._process_data`. -/
def processData (d : IntervalData) : ProcessedInterval :=
  ⟨processPeriod d.daily, processPeriod d.monthly, processPeriod d.yearly⟩

/-- The three interval granularities. -/
inductive Granularity
  | daily
  | monthly
  | yearly
deriving DecidableEq

/-- The granularity's key in the interval-data response. -/
def IntervalData.period (d : IntervalData) : Granularity → Option PeriodData
  | Granularity.daily => d.daily
  | Granularity.monthly => d.monthly
  | Granularity.yearly => d.yearly

/-- The granularity's snapshot in the processed result. -/
def ProcessedInterval.snap (p : ProcessedInterval) : Granularity → Snapshot
  | Granularity.daily => p.daily
  | Granularity.monthly => p.monthly
  | Granularity.yearly => p.yearly

/-- The last entry of the solar array of an (optional) granularity. -/
def lastSolar : Option PeriodData → Option UsageEntry
  | none => none
  | some pd => pd.solar.getLast?

/-- The last entry of the export array of an (optional) granularity. -/
def lastExport : Option PeriodData → Option UsageEntry
  | none => none
  | some pd => pd.export_.getLast?

/-- Spec-side description of the aggregation reducer (from the spec's words:
"take only the last entry of each of the solar and export arrays", with the
export entry routed on `CREDIT` vs any other charge type, exactly one of the
grid / return-to-grid pairs populated, the other zeroed). Defined from the
two last entries alone, to be compared with `processPeriod`. -/
def specSnapshotOfLasts (ls le : Option UsageEntry) : Snapshot :=
  let s1 :=
    match ls with
    | some latest =>
      { Snapshot.empty with
          solar_consumption := some (consumptionOf latest)
          solar_charge := some (chargeValueOf latest)
          solar_latest := some latest }
    | none => Snapshot.empty
  match le with
  | some latest =>
    if effChargeType latest = ChargeType.CREDIT then
      { s1 with
          grid_consumption := some 0
          grid_charge := some 0
          return_to_grid := some (consumptionOf latest)
          return_to_grid_charge := some (chargeValueOf latest)
          grid_latest := some latest }
    else
      { s1 with
          grid_consumption := some (consumptionOf latest)
          grid_charge := some (chargeValueOf latest)
          return_to_grid := some 0
          return_to_grid_charge := some 0
          grid_latest := some latest }
  | none => s1

theorem processPeriod_eq_specSnapshotOfLasts (pd : Option PeriodData) :
    processPeriod pd = specSnapshotOfLasts (lastSolar pd) (lastExport pd) := by
  cases pd with
  | none => rfl
  | some pd =>
    simp only [processPeriod, specSnapshotOfLasts, lastSolar, lastExport]

/-! ## Hourly data processing (`_process_hourly_data`) -/

/-- The hourly-data response: `{"solar": [...], "export": [...]}`. -/
structure HourlyData where
  solar : List UsageEntry
  export_ : List UsageEntry
deriving DecidableEq

/-- One entry dict appended to a processed hourly list. -/
structure HourlyEntryOut where
  period_from : Option String
  period_to : Option String
  consumption : ℚ
  charge : ℚ
  charge_type : Option ChargeType
deriving DecidableEq

/-- The dict appended to `solar_entries` (its `charge_type` uses
`.get("type")` with no default). -/
def solarEntryOut (e : UsageEntry) : HourlyEntryOut :=
  ⟨e.periodFrom, e.periodTo, consumptionOf e, chargeValueOf e, rawChargeType e⟩

/-- The `entry_data` dict built for an export entry (its `charge_type` uses
`.get("type", "DEBIT")`). -/
def exportEntryOut (e : UsageEntry) : HourlyEntryOut :=
  ⟨e.periodFrom, e.periodTo, consumptionOf e, chargeValueOf e,
    some (effChargeType e)⟩

/-- The `processed` dict of `_process_hourly_data`. -/
structure ProcessedHourly where
  solar_entries : List HourlyEntryOut
  grid_entries : List HourlyEntryOut
  return_to_grid_entries : List HourlyEntryOut
  solar_total : ℚ
  grid_total : ℚ
  return_to_grid_total : ℚ
deriving DecidableEq

/-- The solar loop of `_process_hourly_data`: every entry is appended
and its consumption added to `solar_total`. -/
def solarStep (acc : ProcessedHourly) (e : UsageEntry) : ProcessedHourly :=
  { acc with
      solar_entries := acc.solar_entries ++ [solarEntryOut e]
      solar_total := acc.solar_total + consumptionOf e }

/-- The export loop of `_process_hourly_data`: `CREDIT` entries go to the
return-to-grid list/total, all others to the grid list/total. -/
def exportStep (acc : ProcessedHourly) (e : UsageEntry) : ProcessedHourly :=
  if effChargeType e = ChargeType.CREDIT then
    { acc with
        return_to_grid_entries := acc.return_to_grid_entries ++ [exportEntryOut e]
        return_to_grid_total := acc.return_to_grid_total + consumptionOf e }
  else
    { acc with
        grid_entries := acc.grid_entries ++ [exportEntryOut e]
        grid_total := acc.grid_total + consumptionOf e }

/-- `OVOEnergyAUDataUpdateCoordinator._process_hourly_data`. -/
def processHourlyData (d : HourlyData) : ProcessedHourly :=
  let init : ProcessedHourly := ⟨[], [], [], 0, 0, 0⟩
  d.export_.foldl exportStep (d.solar.foldl solarStep init)

/-! ## The poll cycle (`_async_update_data`) -/

/-- The error classes that can abort or degrade a poll: the three
`OVOEnergyAUApiClientError` classes, plus `otherError` standing for any
other exception (the inner `except Exception` of the hourly fetch catches
everything). -/
inductive PollError
  | authenticationError
  | communicationError
  | apiClientError
  | otherError
deriving DecidableEq

/-- The dict returned by a successful `_async_update_data`: the three
interval snapshots plus the `"hourly"` key (`none` models the empty dict
`{}` stored when the hourly fetch failed). -/
structure PollResult where
  daily : Snapshot
  monthly : Snapshot
  yearly : Snapshot
  hourly : Option ProcessedHourly
deriving DecidableEq

/-- `OVOEnergyAUDataUpdateCoordinator._async_update_data`, with the two
network fetches abstracted as `Except` arguments: an interval-data failure
fails the poll (`UpdateFailed`), while any hourly-data failure is caught
and replaced by the empty hourly dict. -/
def asyncUpdateData (intervalFetch : Except PollError IntervalData)
    (hourlyFetch : Except PollError HourlyData) : Except PollError PollResult :=
  match intervalFetch with
  | Except.error e => Except.error e
  | Except.ok d =>
    let p := processData d
    match hourlyFetch with
    | Except.ok h => Except.ok ⟨p.daily, p.monthly, p.yearly, some (processHourlyData h)⟩
    | Except.error _ => Except.ok ⟨p.daily, p.monthly, p.yearly, none⟩

/-! ## Lemmas about the hourly fold -/

lemma foldl_exportStep_grid_entries (es : List UsageEntry) (acc : ProcessedHourly) :
    (es.foldl exportStep acc).grid_entries
      = acc.grid_entries
        ++ (es.filter (fun e => !(effChargeType e == ChargeType.CREDIT))).map exportEntryOut := by
  induction es generalizing acc with
  | nil => simp
  | cons e es ih =>
    by_cases h : effChargeType e = ChargeType.CREDIT <;>
      simp [List.foldl_cons, ih, exportStep, h, List.filter_cons]

lemma foldl_exportStep_return_entries (es : List UsageEntry) (acc : ProcessedHourly) :
    (es.foldl exportStep acc).return_to_grid_entries
      = acc.return_to_grid_entries
        ++ (es.filter (fun e => effChargeType e == ChargeType.CREDIT)).map exportEntryOut := by
  induction es generalizing acc with
  | nil => simp
  | cons e es ih =>
    by_cases h : effChargeType e = ChargeType.CREDIT <;>
      simp [List.foldl_cons, ih, exportStep, h, List.filter_cons]

lemma foldl_exportStep_totals (es : List UsageEntry) (acc : ProcessedHourly) :
    (es.foldl exportStep acc).grid_total + (es.foldl exportStep acc).return_to_grid_total
      = acc.grid_total + acc.return_to_grid_total + (es.map consumptionOf).sum := by
  induction es generalizing acc with
  | nil => simp
  | cons e es ih =>
    rw [List.foldl_cons, ih]
    by_cases h : effChargeType e = ChargeType.CREDIT <;>
      simp [exportStep, h] <;> ring

lemma foldl_exportStep_solar (es : List UsageEntry) (acc : ProcessedHourly) :
    (es.foldl exportStep acc).solar_entries = acc.solar_entries
      ∧ (es.foldl exportStep acc).solar_total = acc.solar_total := by
  induction es generalizing acc with
  | nil => exact ⟨rfl, rfl⟩
  | cons e es ih =>
    by_cases h : effChargeType e = ChargeType.CREDIT <;>
      simp [List.foldl_cons, ih, exportStep, h]

lemma foldl_solarStep_fields (ss : List UsageEntry) (acc : ProcessedHourly) :
    (ss.foldl solarStep acc).solar_entries = acc.solar_entries ++ ss.map solarEntryOut
      ∧ (ss.foldl solarStep acc).solar_total = acc.solar_total + (ss.map consumptionOf).sum
      ∧ (ss.foldl solarStep acc).grid_entries = acc.grid_entries
      ∧ (ss.foldl solarStep acc).return_to_grid_entries = acc.return_to_grid_entries
      ∧ (ss.foldl solarStep acc).grid_total = acc.grid_total
      ∧ (ss.foldl solarStep acc).return_to_grid_total = acc.return_to_grid_total := by
  induction ss generalizing acc with
  | nil => simp
  | cons e ss ih =>
    simp [List.foldl_cons, ih, solarStep]
    ring

/-- C10: the hourly reducer partitions the export entries by charge type in
input order (`CREDIT` to return-to-grid, anything else to grid), the two
export totals together sum all export consumptions, and the solar total sums
all solar consumptions, with missing consumptions counted as zero (via
`consumptionOf`). -/
theorem hourly_reducer_partitions_and_conserves (d : HourlyData) :
    (processHourlyData d).grid_entries
        = (d.export_.filter (fun e => !(effChargeType e == ChargeType.CREDIT))).map exportEntryOut
  ∧ (processHourlyData d).return_to_grid_entries
        = (d.export_.filter (fun e => effChargeType e == ChargeType.CREDIT)).map exportEntryOut
  ∧ (processHourlyData d).grid_total + (processHourlyData d).return_to_grid_total
        = (d.export_.map consumptionOf).sum
  ∧ (processHourlyData d).solar_entries = d.solar.map solarEntryOut
  ∧ (processHourlyData d).solar_total = (d.solar.map consumptionOf).sum := by
  have hs := foldl_solarStep_fields d.solar ⟨[], [], [], 0, 0, 0⟩
  refine ⟨?_, ?_, ?_, ?_, ?_⟩
  · rw [processHourlyData, foldl_exportStep_grid_entries, hs.2.2.1]
    simp
  · rw [processHourlyData, foldl_exportStep_return_entries, hs.2.2.2.1]
    simp
  · rw [processHourlyData, foldl_exportStep_totals, hs.2.2.2.2.1, hs.2.2.2.2.2]
    simp
  · rw [processHourlyData, (foldl_exportStep_solar _ _).1, hs.1]
    simp
  · rw [processHourlyData, (foldl_exportStep_solar _ _).2, hs.2.1]
    simp

/-- C9: when the interval fetch succeeds and the hourly fetch fails with any
error, the poll still succeeds: the published result carries exactly the
processed interval snapshots, with only the hourly portion replaced by the
empty dict; a successful hourly fetch differs from it only in that portion. -/
theorem hourly_failure_nonfatal (d : IntervalData) (e : PollError) :
    asyncUpdateData (Except.ok d) (Except.error e)
        = Except.ok ⟨(processData d).daily, (processData d).monthly, (processData d).yearly, none⟩
  ∧ ∀ h : HourlyData,
      asyncUpdateData (Except.ok d) (Except.ok h)
        = Except.ok ⟨(processData d).daily, (processData d).monthly, (processData d).yearly,
            some (processHourlyData h)⟩ :=
  ⟨rfl, fun _ => rfl⟩

/-- C2: per granularity, the interval reducer's snapshot is a function of
only the last entries of the solar and export arrays, and the last export
entry is routed by its charge type: `CREDIT` populates the return-to-grid
pair and zeroes the grid pair, any other type does the converse. -/
theorem interval_reducer_uses_last_and_routes :
    (∀ (d : IntervalData) (g : Granularity),
        (processData d).snap g
          = specSnapshotOfLasts (lastSolar (d.period g)) (lastExport (d.period g)))
  ∧ (∀ (pd : PeriodData) (e : UsageEntry),
      if effChargeType e = ChargeType.CREDIT then
        (processPeriod (some ⟨pd.solar, pd.export_ ++ [e]⟩)).grid_consumption = some 0
        ∧ (processPeriod (some ⟨pd.solar, pd.export_ ++ [e]⟩)).grid_charge = some 0
        ∧ (processPeriod (some ⟨pd.solar, pd.export_ ++ [e]⟩)).return_to_grid
            = some (consumptionOf e)
        ∧ (processPeriod (some ⟨pd.solar, pd.export_ ++ [e]⟩)).return_to_grid_charge
            = some (chargeValueOf e)
      else
        (processPeriod (some ⟨pd.solar, pd.export_ ++ [e]⟩)).grid_consumption
            = some (consumptionOf e)
        ∧ (processPeriod (some ⟨pd.solar, pd.export_ ++ [e]⟩)).grid_charge
            = some (chargeValueOf e)
        ∧ (processPeriod (some ⟨pd.solar, pd.export_ ++ [e]⟩)).return_to_grid = some 0
        ∧ (processPeriod (some ⟨pd.solar, pd.export_ ++ [e]⟩)).return_to_grid_charge
            = some 0) := by
  constructor
  · intro d g
    cases g <;>
      simp [processData, ProcessedInterval.snap, IntervalData.period,
        processPeriod_eq_specSnapshotOfLasts]
  · intro pd e
    have hlast : (pd.export_ ++ [e]).getLast? = some e := by
      simp [List.getLast?_concat]
    by_cases h : effChargeType e = ChargeType.CREDIT <;>
      · simp only [h, if_true, if_false]
        rw [processPeriod_eq_specSnapshotOfLasts]
        simp only [lastSolar, lastExport, hlast, specSnapshotOfLasts]
        cases pd.solar.getLast? <;> simp [h, Snapshot.empty]

/-! ## Token lifecycle (`api.py`: `OVOEnergyAUApiClient`) -/

/-- What `jwt.decode(access_token, options=..verify_signature: False..)`
followed by `decoded.get("exp")` yields for a given access token: decoding
can fail altogether, succeed with no `exp` claim, or produce a numeric
`exp` timestamp. -/
inductive JwtExp
  | undecodable
  | noExp
  | expClaim (t : Int)
deriving DecidableEq

/-- An access token: the raw string plus the outcome of decoding its
expiry claim (the token is treated as opaque apart from that claim). -/
structure AccessToken where
  raw : String
  jwtExp : JwtExp
deriving DecidableEq

/-- The client's mutable token state: `_access_token`, `_id_token`,
`_refresh_token`, `_token_expires_at`. -/
structure ClientState where
  accessToken : Option AccessToken
  idToken : Option String
  refreshToken : Option String
  tokenExpiresAt : Option Int
deriving DecidableEq

/-- The freshly constructed client (`__init__`): all four fields `None`. -/
def initialClientState : ClientState :=
  ⟨none, none, none, none⟩

/-- `OVOEnergyAUApiClient.token_expired` at time `now`: true when no expiry
is stored, else when `now >= expires_at - 5 minutes`. -/
def tokenExpired (st : ClientState) (now : Int) : Bool :=
  match st.tokenExpiresAt with
  | none => true
  | some e => decide (e - 300 ≤ now)

/-- The fallback expiry computation of `set_tokens` when `expires_in` is
absent or falsy: a nonzero decoded `exp` claim wins (`if exp_timestamp:` is
Python truthiness, so a zero claim falls through), otherwise one hour from
now; an undecodable token also defaults to one hour. -/
def jwtFallbackExpiry (tok : AccessToken) (now : Int) : Int :=
  match tok.jwtExp with
  | JwtExp.expClaim t => if t ≠ 0 then t else now + 3600
  | JwtExp.noExp => now + 3600
  | JwtExp.undecodable => now + 3600

/-- `OVOEnergyAUApiClient.set_tokens` at time `now`: overwrites all four
fields; `expires_at` comes from `expires_in` when that is truthy
(`if expires_in:`, so `0` counts as absent), else from the JWT fallback. -/
def setTokens (_st : ClientState) (accessToken : AccessToken) (idToken : String)
    (refreshToken : Option String) (expiresIn : Option Int) (now : Int) : ClientState :=
  let expiresAt : Int :=
    match expiresIn with
    | some e => if e ≠ 0 then now + e else jwtFallbackExpiry accessToken now
    | none => jwtFallbackExpiry accessToken now
  { accessToken := some accessToken
    idToken := some idToken
    refreshToken := refreshToken
    tokenExpiresAt := some expiresAt }

/-- The JSON body of a token-endpoint response:
`{access_token, id_token, refresh_token?, expires_in?}`. -/
structure TokenResponse where
  access_token : AccessToken
  id_token : String
  refresh_token : Option String
  expires_in : Option Int
deriving DecidableEq

/-- The state update performed by a successful
`exchange_code_for_tokens`: `set_tokens` with
`refresh_token=token_data.get("refresh_token")` — the response value as is,
`None` when the response omits it. -/
def exchangeCodeForTokens (st : ClientState) (td : TokenResponse) (now : Int) : ClientState :=
  setTokens st td.access_token td.id_token td.refresh_token td.expires_in now

/-- The state update performed by a successful `refresh_tokens`:
`set_tokens` with `refresh_token=token_data.get("refresh_token",
self._refresh_token)` — the stored token is kept when the response omits
one. -/
def refreshTokensApply (st : ClientState) (td : TokenResponse) (now : Int) : ClientState :=
  setTokens st td.access_token td.id_token
    (match td.refresh_token with
     | some r => some r
     | none => st.refreshToken)
    td.expires_in now

/-- The two error classes `refresh_tokens` can raise for an HTTP-level
failure. -/
inductive RefreshError
  | authenticationError
  | communicationError
deriving DecidableEq

/-- An HTTP response from the token endpoint: final status, `Content-Type`
header, and the decoded JSON body (responses whose body is not well-formed
token JSON are outside this model). -/
structure HttpResponse where
  status : Nat
  contentType : String
  body : TokenResponse
deriving DecidableEq

/-- `l` occurs as a contiguous sublist of `s` (Python's `in` on strings). -/
def hasSubLC (pat : List Char) : List Char → Bool
  | [] => pat.isEmpty
  | c :: cs => pat.isPrefixOf (c :: cs) || hasSubLC pat cs

/-- Python's `needle in haystack` on strings. -/
def strHasSub (haystack needle : String) : Bool :=
  hasSubLC needle.data haystack.data

/-- `OVOEnergyAUApiClient.refresh_tokens` against a given HTTP response at
time `now`. No stored refresh token fails immediately with
AuthenticationError. `response.raise_for_status()` raises
`ClientResponseError` exactly for statuses `>= 400`; the handler maps 403
to AuthenticationError and any other such status to CommunicationError.
On a lower status, `response.json()` raises `ContentTypeError` (a
`ClientResponseError` carrying the same sub-400 status, hence mapped to
CommunicationError) when the content type is not JSON; otherwise the
decoded body is handed to `set_tokens`. -/
def refreshTokens (st : ClientState) (resp : HttpResponse) (now : Int) :
    Except RefreshError ClientState :=
  if st.refreshToken.isNone then Except.error RefreshError.authenticationError
  else if 400 ≤ resp.status then
    if resp.status = 403 then Except.error RefreshError.authenticationError
    else Except.error RefreshError.communicationError
  else if strHasSub resp.contentType "application/json" = false then
    Except.error RefreshError.communicationError
  else Except.ok (refreshTokensApply st resp.body now)

/-- A sample access token for concrete instances. -/
def sampleTok : AccessToken :=
  ⟨"tok.sample", JwtExp.expClaim 9999⟩

/-- A client state holding a full credential set (refresh token present). -/
def stWithRefresh : ClientState :=
  ⟨some sampleTok, some "id0", some "old-refresh", some 100⟩

/-- C3 counterexample: a successful code exchange whose response omits
`refresh_token` does NOT preserve the previously stored refresh token —
`exchange_code_for_tokens` passes `token_data.get("refresh_token")`
(that is, `None`) to `set_tokens`, wiping the stored value. -/
theorem exchange_drops_old_refresh_token :
    (exchangeCodeForTokens stWithRefresh ⟨sampleTok, "id1", none, some 3600⟩ 0).refreshToken
      = none
  ∧ (exchangeCodeForTokens stWithRefresh ⟨sampleTok, "id1", none, some 3600⟩ 0).refreshToken
      ≠ some "old-refresh" := by
  constructor
  · rfl
  · decide

/-- C3 amended: both successful token-exchange paths swap the credential set
wholesale with no merging of old and new fields — the exchange result does
not depend on the prior state at all, and the refresh result depends on it
only through the stored refresh token, which is preserved exactly on the
refresh path when the response omits `refresh_token`; on the
authorization-code exchange path the stored refresh token is simply
replaced by the response's (possibly absent) value. -/
theorem credential_replacement_swap :
    (∀ (st : ClientState) (td : TokenResponse) (now : Int),
        (exchangeCodeForTokens st td now).accessToken = some td.access_token
      ∧ (exchangeCodeForTokens st td now).idToken = some td.id_token
      ∧ (exchangeCodeForTokens st td now).refreshToken = td.refresh_token
      ∧ exchangeCodeForTokens st td now = exchangeCodeForTokens initialClientState td now)
  ∧ (∀ (st : ClientState) (td : TokenResponse) (now : Int),
        (refreshTokensApply st td now).accessToken = some td.access_token
      ∧ (refreshTokensApply st td now).idToken = some td.id_token
      ∧ (refreshTokensApply st td now).refreshToken
          = (match td.refresh_token with
             | some r => some r
             | none => st.refreshToken)
      ∧ refreshTokensApply st td now
          = refreshTokensApply ⟨none, none, st.refreshToken, none⟩ td now) :=
  ⟨fun _ _ _ => ⟨rfl, rfl, rfl, rfl⟩, fun _ _ _ => ⟨rfl, rfl, rfl, rfl⟩⟩

/-- A refresh-endpoint response with a non-2xx, non-redirect-following
status (304) and a well-formed JSON token body. -/
def resp304 : HttpResponse :=
  ⟨304, "application/json", ⟨sampleTok, "id1", some "r1", some 3600⟩⟩

/-- A 403 refresh-endpoint response. -/
def resp403 : HttpResponse :=
  ⟨403, "application/json", ⟨sampleTok, "id1", some "r1", some 3600⟩⟩

/-- C4 counterexample: a 304 response with a JSON body is a non-2xx status,
yet `refresh_tokens` raises neither error class — `raise_for_status` only
raises for statuses `>= 400`, so the body is decoded and the call succeeds.
The claim's "every other non-2xx status raises CommunicationError" fails
here. -/
theorem refresh_non2xx_not_always_comm :
    (∃ st', refreshTokens stWithRefresh resp304 0 = Except.ok st')
  ∧ ¬ (200 ≤ resp304.status ∧ resp304.status < 300) :=
  ⟨⟨refreshTokensApply stWithRefresh resp304.body 0, rfl⟩, by decide⟩

/-- C4 amended: given a stored refresh token, a 403 response to the refresh
request raises AuthenticationError (never CommunicationError), and every
other ERROR status (`>= 400`) raises CommunicationError; statuses below 400
are not classified by this handler at all (`raise_for_status` does not
raise for them). -/
theorem refresh_http_error_classification (st : ClientState) (resp : HttpResponse)
    (now : Int) (hr : st.refreshToken.isSome) :
    (resp.status = 403 →
        refreshTokens st resp now = Except.error RefreshError.authenticationError)
  ∧ (400 ≤ resp.status → resp.status ≠ 403 →
        refreshTokens st resp now = Except.error RefreshError.communicationError) := by
  have hn : st.refreshToken.isNone = false := by
    cases h : st.refreshToken with
    | none => rw [h] at hr; simp at hr
    | some r => rfl
  constructor
  · intro h403
    simp [refreshTokens, hn, h403]
  · intro hge hne
    simp [refreshTokens, hn, hge, hne]

theorem refresh_http_error_classification_witness :
    stWithRefresh.refreshToken.isSome
  ∧ refreshTokens stWithRefresh resp403 0 = Except.error RefreshError.authenticationError :=
  ⟨by decide, (refresh_http_error_classification stWithRefresh resp403 0 (by decide)).1 rfl⟩

/-- C5 counterexample: a credential set whose response carries the explicit
`expires_in = 60` is already expired immediately after `set_tokens` — the
5-minute buffer exceeds the lifetime, contradicting the claim that
`isExpired()` is false immediately after every replace with an explicit
`expires_in`. -/
theorem expired_immediately_with_short_expires_in :
    tokenExpired (setTokens initialClientState sampleTok "id" none (some 60) 0) 0 = true := by
  decide

/-- C5 amended: with a truthy explicit `expires_in = e`, `token_expired`
immediately after `set_tokens` is `e <= 300` — false exactly when the
lifetime exceeds the 5-minute buffer; in general it is true exactly when
`now` reaches `expires_at - 300`; and it is true whenever no expiry is
stored (in particular on the fresh client). -/
theorem token_expiry_semantics :
    (∀ (st : ClientState) (a : AccessToken) (i : String) (r : Option String) (e now : Int),
        e ≠ 0 →
        tokenExpired (setTokens st a i r (some e) now) now = decide (e ≤ 300))
  ∧ (∀ (st : ClientState) (now e : Int), st.tokenExpiresAt = some e →
        (tokenExpired st now = true ↔ e - 300 ≤ now))
  ∧ (∀ (st : ClientState) (now : Int), st.tokenExpiresAt = none →
        tokenExpired st now = true) := by
  refine ⟨?_, ?_, ?_⟩
  · intro st a i r e now he
    have harith : (now + e - 300 ≤ now) ↔ (e ≤ 300) := by omega
    simp [setTokens, tokenExpired, he, harith]
  · intro st now e h
    simp [tokenExpired, h]
  · intro st now h
    simp [tokenExpired, h]

theorem token_expiry_semantics_witness :
    ((3600 : Int) ≠ 0)
  ∧ tokenExpired (setTokens initialClientState sampleTok "id" none (some 3600) 0) 0
      = decide ((3600 : Int) ≤ 300) :=
  ⟨by decide, token_expiry_semantics.1 initialClientState sampleTok "id" none 3600 0 (by decide)⟩

/-- C6 counterexample: an explicit `expires_in = 0` is present in the
response but ignored (`if expires_in:` is falsy), so `expires_at` comes
from the token's `exp` claim (5000) rather than `now + expires_in = 0`. -/
theorem zero_expires_in_ignored :
    (setTokens initialClientState ⟨"tok0", JwtExp.expClaim 5000⟩ "id" none (some 0) 0).tokenExpiresAt
      = some 5000
  ∧ ((5000 : Int) ≠ 0 + 0) := by
  constructor
  · rfl
  · decide

/-- C6 amended: `expires_at` is `now + expires_in` whenever an explicit
nonzero `expires_in` is present (a zero value is falsy and treated as
absent); otherwise it is the token's nonzero decoded `exp` claim; and when
that is not available — the claim absent, the claim zero (`if exp_timestamp:`
is falsy for 0), or the token undecodable — the default is one hour from
now. -/
theorem expires_at_derivation :
    (∀ (st : ClientState) (a : AccessToken) (i : String) (r : Option String) (e now : Int),
        e ≠ 0 →
        (setTokens st a i r (some e) now).tokenExpiresAt = some (now + e))
  ∧ (∀ (st : ClientState) (a : AccessToken) (i : String) (r : Option String) (now t : Int),
        a.jwtExp = JwtExp.expClaim t → t ≠ 0 →
        (setTokens st a i r none now).tokenExpiresAt = some t)
  ∧ (∀ (st : ClientState) (a : AccessToken) (i : String) (r : Option String) (now : Int),
        a.jwtExp = JwtExp.noExp ∨ a.jwtExp = JwtExp.undecodable
            ∨ a.jwtExp = JwtExp.expClaim 0 →
        (setTokens st a i r none now).tokenExpiresAt = some (now + 3600))
  ∧ (∀ (st : ClientState) (a : AccessToken) (i : String) (r : Option String) (now : Int),
        (setTokens st a i r (some 0) now).tokenExpiresAt
          = (setTokens st a i r none now).tokenExpiresAt) := by
  refine ⟨?_, ?_, ?_, ?_⟩
  · intro st a i r e now he
    simp [setTokens, he]
  · intro st a i r now t hexp ht
    simp [setTokens, jwtFallbackExpiry, hexp, ht]
  · intro st a i r now hcase
    rcases hcase with h | h | h <;> simp [setTokens, jwtFallbackExpiry, h]
  · intro st a i r now
    simp [setTokens]

theorem expires_at_derivation_witness :
    ((1800 : Int) ≠ 0)
  ∧ (setTokens initialClientState sampleTok "id" none (some 1800) 5).tokenExpiresAt
      = some (5 + 1800) :=
  ⟨by decide, expires_at_derivation.1 initialClientState sampleTok "id" none 1800 5 (by decide)⟩

/-! ## Authenticated data fetches (`get_interval_data`, `get_hourly_data`) -/

/-- A decoded GraphQL response body: the `errors` array (empty when the key
is absent) and the `data` envelope with the operation's payload, `none`
when the `data` key is missing (the payload itself is opaque here). -/
structure GraphBody where
  errors : List String
  data_ : Option String
deriving DecidableEq

/-- A data-endpoint HTTP response: final status, `Content-Type` header and
decoded body (bodies that are not decodable JSON on a JSON content type are
outside this model). -/
structure DataResponse where
  status : Nat
  contentType : String
  body : GraphBody
deriving DecidableEq

/-- The outcome of a data fetch: the payload, or one of the three
`OVOEnergyAUApiClientError` classes. -/
inductive FetchResult
  | ok (payload : String)
  | authenticationError
  | communicationError
  | apiClientError
deriving DecidableEq

/-- `OVOEnergyAUApiClient.get_interval_data` response handling:
`raise_for_status` (status >= 400: 401 is AuthenticationError, others
CommunicationError), then the explicit content-type check (non-JSON on a
successful status raises AuthenticationError, re-raised unwrapped by the
first `except` clause), then GraphQL `errors`, then the `data` envelope. -/
def getIntervalDataResponse (resp : DataResponse) : FetchResult :=
  if 400 ≤ resp.status then
    if resp.status = 401 then FetchResult.authenticationError
    else FetchResult.communicationError
  else if strHasSub resp.contentType "application/json" = false then
    FetchResult.authenticationError
  else if resp.body.errors ≠ [] then FetchResult.apiClientError
  else
    match resp.body.data_ with
    | none => FetchResult.apiClientError
    | some payload => FetchResult.ok payload

/-- `OVOEnergyAUApiClient.get_hourly_data` response handling — identical to
`get_interval_data`'s apart from the payload key. -/
def getHourlyDataResponse (resp : DataResponse) : FetchResult :=
  if 400 ≤ resp.status then
    if resp.status = 401 then FetchResult.authenticationError
    else FetchResult.communicationError
  else if strHasSub resp.contentType "application/json" = false then
    FetchResult.authenticationError
  else if resp.body.errors ≠ [] then FetchResult.apiClientError
  else
    match resp.body.data_ with
    | none => FetchResult.apiClientError
    | some payload => FetchResult.ok payload

/-- C8: a successful-status data-endpoint response whose content type is not
JSON surfaces as AuthenticationError from both fetch operations — never as
CommunicationError or an API error. -/
theorem nonjson_success_is_auth_error (r : DataResponse)
    (hstatus : 200 ≤ r.status ∧ r.status < 300)
    (hct : strHasSub r.contentType "application/json" = false) :
    getIntervalDataResponse r = FetchResult.authenticationError
  ∧ getHourlyDataResponse r = FetchResult.authenticationError := by
  have h4 : ¬ (400 ≤ r.status) := by omega
  constructor <;> simp [getIntervalDataResponse, getHourlyDataResponse, h4, hct]

/-- A 200 response whose body is the HTML login page. -/
def htmlResp : DataResponse :=
  ⟨200, "text/html; charset=utf-8", ⟨[], none⟩⟩

theorem nonjson_success_is_auth_error_witness :
    (200 ≤ htmlResp.status ∧ htmlResp.status < 300)
  ∧ strHasSub htmlResp.contentType "application/json" = false
  ∧ getIntervalDataResponse htmlResp = FetchResult.authenticationError :=
  ⟨by decide, by decide,
    (nonjson_success_is_auth_error htmlResp (by decide) (by decide)).1⟩

/-! ## Statistics merger (`sensor.py`: `_async_import_statistics`) -/

/-- A sorted hourly entry as seen by the statistics loop: `period_from`
already run through `dt_util.parse_datetime` (`none` = unparseable, the
entry is skipped with `continue` before touching the accumulator) and the
consumption already through `float(...)`. -/
structure StatEntry where
  period_from : Option Int
  consumption : ℚ
deriving DecidableEq

/-- A `StatisticData(start=..., state=..., sum=...)` record. -/
structure StatisticData where
  start : Int
  state : ℚ
  sum : ℚ
deriving DecidableEq

/-- The statistics loop of `_async_import_statistics`: `current_sum` is
seeded at `last_sum` (the freshly queried prior sum); each entry with a
parseable timestamp adds its consumption to `current_sum` and emits a
`StatisticData` triple; unparseable entries are skipped. -/
def mergeStatistics (lastSum : ℚ) : List StatEntry → List StatisticData
  | [] => []
  | e :: es =>
    match e.period_from with
    | none => mergeStatistics lastSum es
    | some t =>
      ⟨t, e.consumption, lastSum + e.consumption⟩
        :: mergeStatistics (lastSum + e.consumption) es

lemma mergeStatistics_spec (entries : List StatEntry) :
    ∀ (lastSum : ℚ), (∀ e ∈ entries, e.period_from ≠ none) →
      (mergeStatistics lastSum entries).length = entries.length
    ∧ ∀ (i : Nat) (ei : StatEntry), entries[i]? = some ei →
        ∃ p : StatisticData, (mergeStatistics lastSum entries)[i]? = some p
          ∧ p.sum = lastSum + ((entries.take (i + 1)).map StatEntry.consumption).sum
          ∧ p.state = ei.consumption
          ∧ some p.start = ei.period_from := by
  induction entries with
  | nil =>
    intro lastSum _
    exact ⟨rfl, fun i ei h => absurd h (by simp)⟩
  | cons e es ih =>
    intro lastSum hp
    obtain ⟨t, ht⟩ : ∃ t, e.period_from = some t := by
      cases h : e.period_from with
      | none => exact absurd h (hp e (List.mem_cons_self e es))
      | some t => exact ⟨t, rfl⟩
    have hunfold : mergeStatistics lastSum (e :: es)
        = ⟨t, e.consumption, lastSum + e.consumption⟩
            :: mergeStatistics (lastSum + e.consumption) es := by
      simp [mergeStatistics, ht]
    have hes := ih (lastSum + e.consumption) (fun x hx => hp x (List.mem_cons_of_mem e hx))
    constructor
    · rw [hunfold]
      simp [hes.1]
    · intro i ei hei
      cases i with
      | zero =>
        have he : e = ei := by simpa using hei
        refine ⟨⟨t, e.consumption, lastSum + e.consumption⟩, ?_, ?_, ?_, ?_⟩
        · simp [hunfold]
        · simp
        · rw [he]
        · rw [← he, ht]
      | succ i =>
        have hei' : es[i]? = some ei := by simpa using hei
        obtain ⟨p, hp?, hsum, hstate, hstart⟩ := hes.2 i ei hei'
        refine ⟨p, ?_, ?_, hstate, hstart⟩
        · simp [hunfold, hp?]
        · rw [hsum, List.take_succ_cons, List.map_cons, List.sum_cons, add_assoc]

/-- The hourly batch of the spec's worked example:
`[{t0, consumption: 1}, {t1, consumption: 2}]`. -/
def sampleBatch : List StatEntry :=
  [⟨some 0, 1⟩, ⟨some 1, 2⟩]

/-- C1: for a batch of parseable entries, the merger emits one
(timestamp, consumption, cumulative sum) triple per entry, the i-th sum
being `last_known_sum` plus the consumptions of entries 0..i; in
particular the worked example batch merged against 10 gives sums [11, 13]
and re-merged against a freshly queried 13 gives [14, 16]. -/
theorem statistics_merger_running_sum (lastSum : ℚ) (entries : List StatEntry)
    (hp : ∀ e ∈ entries, e.period_from ≠ none) :
    ((mergeStatistics lastSum entries).length = entries.length
  ∧ ∀ (i : Nat) (ei : StatEntry), entries[i]? = some ei →
      ∃ p : StatisticData, (mergeStatistics lastSum entries)[i]? = some p
        ∧ p.sum = lastSum + ((entries.take (i + 1)).map StatEntry.consumption).sum
        ∧ p.state = ei.consumption
        ∧ some p.start = ei.period_from)
  ∧ (mergeStatistics 10 sampleBatch).map StatisticData.sum = [11, 13]
  ∧ (mergeStatistics 13 sampleBatch).map StatisticData.sum = [14, 16] :=
  ⟨mergeStatistics_spec entries lastSum hp,
    by norm_num [mergeStatistics, sampleBatch],
    by norm_num [mergeStatistics, sampleBatch]⟩

theorem statistics_merger_running_sum_witness :
    (∀ e ∈ sampleBatch, e.period_from ≠ none)
  ∧ (mergeStatistics 10 sampleBatch).length = sampleBatch.length :=
  ⟨by decide, (statistics_merger_running_sum 10 sampleBatch (by decide)).1.1⟩

/-! ## Login-form scraping (`authenticate_with_password`, step 3)

The code extracts the form `action` with `re.search(r'action="([^"]+)"')`
and the hidden fields with
`re.finditer(r'<input[^>]+type="hidden"[^>]+name="([^"]+)"[^>]+value="([^"]*)"')`,
HTML-entity-decoding values with `html.unescape`, accumulating them in a
Python dict. The scanners below embed those regexes as character-list
scanners: a match attempt at each position from the left, `[^"].../[^>]...`
gaps scanned to the first occurrence of the next literal (on the
auto-submit form markup quantified over below, where attribute values
contain no raw quote, the first-occurrence scan coincides with the regex
engine's backtracking search). -/

end OvoEnergyAU
